import Mathlib

/-!
Shallow embedding of scripts/dsn.py, a corpus-statistics tool that tokenizes
S-expression design files and counts nested keyword paths.

Text is modelled as List Char, tokens as String, the counts dict as an
insertion-ordered association list, and the two module-level globals (path
and counts) as explicit state threaded through the walker and the per-file
loop. Failures (assertion errors and index-out-of-range) are modelled as a
false success flag carrying the state at the moment of failure, matching the
script's try/except around each file.
-/

/-- The keyword vocabulary from dsn.py (the module-level list of keywords). -/
def keywords : List String :=
  [
  "absolute", "added", "add_group", "add_pins", "allow_antenna",
  "allow_redundant_wiring", "amp", "ancestor", "antipad", "aperture_type",
  "array", "attach", "attr", "average_pair_length", "back", "base_design",
  "bbv_ctr2ctr", "bend_keepout", "bond", "both", "bottom",
  "bottom_layer_sel", "boundary", "brickpat", "bundle", "bus", "bypass",
  "capacitance_resolution", "capacitor", "case_sensitive", "cct1", "cct1a",
  "center_center", "checking_trim_by_pin", "circ", "circle", "circuit",
  "class", "class_class", "classes", "clear", "clearance", "cluster", "cm",
  "color", "colors", "comment", "comp", "comp_edge_center", "comp_order",
  "component", "composite", "conductance_resolution", "conductor",
  "conflict", "connect", "constant", "contact", "control", "corner",
  "corners", "cost", "created_time", "cross", "crosstalk_model",
  "current_resolution", "deleted", "deleted_keepout", "delta", "diagonal",
  "direction", "directory", "discrete", "effective_via_length",
  "elongate_keepout", "exclude", "expose", "extra_image_directory", "family",
  "family_family", "family_family_spacing", "fanout", "farad", "file", "fit",
  "fix", "flip_style", "floor_plan", "footprint", "forbidden",
  "force_to_terminal_point", "forgotten", "free", "fromto", "front",
  "front_only", "gap", "gate", "gates", "generated_by_freeroute", "global",
  "grid", "group", "group_set", "guide", "hard", "height", "high", "history",
  "horizontal", "host_cad", "host_version", "image", "image_conductor",
  "image_image", "image_image_spacing", "image_outline_clearance",
  "image_set", "image_type", "inch", "include", "include_pins_in_crosstalk",
  "inductance_resolution", "insert", "instcnfg", "inter_layer_clearance",
  "jumper", "junction_type", "keepout", "kg", "kohm", "large", "large_large",
  "layer", "layer_depth", "layer_noise_weight", "layer_pair", "layer_rule",
  "length", "length_amplitude", "length_factor", "length_gap", "library",
  "library_out", "limit", "limit_bends", "limit_crossing", "limit_vias",
  "limit_way", "linear", "linear_interpolation", "load", "lock_type",
  "logical_part", "logical_part_mapping", "low", "match_fromto_delay",
  "match_fromto_length", "match_group_delay", "match_group_length",
  "match_net_delay", "match_net_length", "max_delay", "max_len",
  "max_length", "max_noise", "max_restricted_layer_length", "max_stagger",
  "max_stub", "max_total_delay", "max_total_length", "max_total_vias",
  "medium", "mhenry", "mho", "microvia", "mid_driven", "mil", "min_gap",
  "mirror", "mirror_first", "mixed", "mm", "negative_diagonal", "net",
  "net_number", "net_out", "net_pin_changes", "nets", "network",
  "network_out", "no", "noexpose", "noise_accumulation", "noise_calculation",
  "normal", "object_type", "off", "off_grid", "offset", "on", "open",
  "opposite_side", "order", "orthogonal", "outline", "overlap", "pad",
  "pad_pad", "padstack", "pair", "parallel", "parallel_noise",
  "parallel_segment", "parser", "part_library", "path", "pcb",
  "permit_orient", "permit_side", "physical", "physical_part_mapping",
  "piggyback", "pin", "pin_allow", "pin_cap_via", "pin_via_cap",
  "pin_width_taper", "pins", "pintype", "place", "place_boundary",
  "place_control", "place_keepout", "place_rule", "placement", "plan",
  "plane", "pn", "point", "polyline_path", "polygon", "position",
  "positive_diagonal", "power", "power_dissipation", "power_fanout",
  "prefix", "primary", "priority", "property", "protect", "qarc", "quarter",
  "radius", "ratio", "ratio_tolerance", "rect", "reduced", "region",
  "region_class", "region_class_class", "region_net", "relative_delay",
  "relative_group_delay", "relative_group_length", "relative_length",
  "reorder", "reroute_order_viols", "resistance_resolution", "resistor",
  "resolution", "restricted_layer_length_factor", "room", "rotate",
  "rotate_first", "round", "roundoff_rotation", "route",
  "route_to_fanout_only", "routes", "routes_include", "rule",
  "same_net_checking", "sample_window", "saturation_length", "sec",
  "secondary", "self", "sequence_number", "session", "set_color",
  "set_pattern", "shape", "shield", "shield_gap", "shield_loop",
  "shield_tie_down_interval", "shield_width", "side", "signal", "site",
  "small", "smd", "snap", "snap_angle", "soft", "source",
  "space_in_quoted_tokens", "spacing", "spare", "spiral_via", "square",
  "stack_via", "stack_via_depth", "standard", "starburst", "status",
  "structure", "structure_out", "subgate", "subgates", "substituted", "such",
  "suffix", "super_placement", "supply", "supply_pin", "swapping",
  "switch_window", "system", "tandem_noise", "tandem_segment",
  "tandem_shield_overhang", "terminal", "terminator", "term_only", "test",
  "test_points", "testpoint", "threshold", "time_length_factor",
  "time_resolution", "tjunction", "tolerance", "top", "topology", "total",
  "track_id", "turret", "type", "um", "unassigned", "unconnects", "unit",
  "up", "use_array", "use_layer", "use_net", "use_via", "value", "vertical",
  "via", "via_array_template", "via_at_smd", "via_keepout", "via_number",
  "via_rotate_first", "via_site", "via_size", "virtual_pin", "volt",
  "voltage_resolution", "was_is", "way", "weight", "width", "window", "wire",
  "wire_keepout", "wires", "wires_include", "wiring", "write_resolution",
  "pin_pin", "smd_pin", "via_pin", "wire_pin", "area_pin", "testpoint_pin",
  "pin_smd", "smd_smd", "via_smd", "wire_smd", "area_smd", "testpoint_smd",
  "pin_via", "smd_via", "via_via", "wire_via", "area_via", "testpoint_via",
  "pin_wire", "smd_wire", "via_wire", "wire_wire", "area_wire",
  "testpoint_wire", "pin_area", "smd_area", "via_area", "wire_area",
  "area_area", "testpoint_area", "pin_testpoint", "smd_testpoint",
  "via_testpoint", "wire_testpoint", "area_testpoint", "testpoint_testpoint",
  "smd_via_same_net", "via_via_same_net", "buried_via_gap", "antipad_gap",
  "pad_to_turn_gap", "smd_to_turn_gap"]

/-- Membership test from dsn.py, the function checking `t in keywords`. -/
def valid_keyword (t : String) : Bool := decide (t ∈ keywords)

/-- Association-list counts, modelling the insertion-ordered Python dict. -/
abbrev Counts := List (String × Nat)

/-- Model of `counts.setdefault(ct, 0); counts[ct] += 1`: bump the entry for
ct, appending a fresh entry with count 1 at the end when absent. -/
def bumpCount (ct : String) : Counts → Counts
  | [] => [(ct, 1)]
  | (k, v) :: rest =>
    if k = ct then (k, v + 1) :: rest else (k, v) :: bumpCount ct rest

/-- Model of `'.'.join(path)`. -/
def joinDot : List String → String
  | [] => ""
  | [s] => s
  | s :: rest => s ++ "." ++ joinDot rest

/-- Model of dsn.py add_path: record one occurrence of the dot-joined current
path in the counts mapping. -/
def add_path (path : List String) (counts : Counts) : Counts :=
  bumpCount (joinDot path) counts

/-- Boolean prefix test on char lists. -/
def isPrefixB : List Char → List Char → Bool
  | [], _ => true
  | _ :: _, [] => false
  | a :: as, b :: bs => a = b && isPrefixB as bs

/-- Substring containment, modelling the Python test `pat in data`. -/
def containsSub (pat : List Char) : List Char → Bool
  | [] => isPrefixB pat []
  | c :: rest => isPrefixB pat (c :: rest) || containsSub pat rest

/-- The marker substring selecting double-quote quoting in dsn.py. -/
def markerDq : List Char := "(string_quote \")".toList

/-- The marker substring selecting single-quote quoting in dsn.py. -/
def markerSq : List Char := "(string_quote ')".toList

/-- The marker substring selecting dollar quoting in dsn.py. -/
def markerDl : List Char := "(string_quote $)".toList

/-- Quote-character selection from dsn.py process (lines 122-128): three
sequential ifs starting from a default of a double quote, so a later test
overrides an earlier one. -/
def selectQuote (data : List Char) : Char :=
  let q0 := '"'
  let q1 := if containsSub markerDq data then '"' else q0
  let q2 := if containsSub markerSq data then '\'' else q1
  if containsSub markerDl data then '$' else q2

/-- Model of removing the double-quote marker with str.replace: one
left-to-right pass removing each occurrence of the 16-character marker. -/
def removeMarkerDq : List Char → List Char
  | '(' :: 's' :: 't' :: 'r' :: 'i' :: 'n' :: 'g' :: '_' :: 'q' :: 'u' :: 'o' :: 't' :: 'e' :: ' ' :: '"' :: ')' :: rest =>
    removeMarkerDq rest
  | c :: rest => c :: removeMarkerDq rest
  | [] => []

/-- Model of removing the single-quote marker with str.replace. -/
def removeMarkerSq : List Char → List Char
  | '(' :: 's' :: 't' :: 'r' :: 'i' :: 'n' :: 'g' :: '_' :: 'q' :: 'u' :: 'o' :: 't' :: 'e' :: ' ' :: '\'' :: ')' :: rest =>
    removeMarkerSq rest
  | c :: rest => c :: removeMarkerSq rest
  | [] => []

/-- Model of removing the dollar marker with str.replace. -/
def removeMarkerDl : List Char → List Char
  | '(' :: 's' :: 't' :: 'r' :: 'i' :: 'n' :: 'g' :: '_' :: 'q' :: 'u' :: 'o' :: 't' :: 'e' :: ' ' :: '$' :: ')' :: rest =>
    removeMarkerDl rest
  | c :: rest => c :: removeMarkerDl rest
  | [] => []

/-- Model of the escaped-quote removal in dsn.py line 132, which replaces the
fixed two-character sequence backslash plus double quote by nothing in one
left-to-right pass, regardless of the selected active quote character. -/
def removeEscQuote : List Char → List Char
  | [] => []
  | [c] => [c]
  | c1 :: c2 :: rest =>
    if c1 = '\\' ∧ c2 = '"' then removeEscQuote rest
    else c1 :: removeEscQuote (c2 :: rest)

/-- Lowercasing, modelling data.lower() on the ASCII text of this format. -/
def lowerStr (d : List Char) : List Char := d.map Char.toLower

/-- Quoted-region pass from dsn.py process (lines 134-143). The Bool flag
records whether the scan is inside a quoted region (the inner while loop).
Outside a region every character is copied; the active quote character
switches into the inner loop, which drops characters until the closing quote
and then emits the quote character. Reaching the end of the input inside a
region is the script's IndexError, modelled as none. -/
def quotePassAux (q : Char) : Bool → List Char → Option (List Char)
  | false, [] => some []
  | false, c :: rest =>
    if c = q then (quotePassAux q true rest).map fun out => c :: out
    else (quotePassAux q false rest).map fun out => c :: out
  | true, [] => none
  | true, c :: rest =>
    if c = q then (quotePassAux q false rest).map fun out => q :: out
    else quotePassAux q true rest

/-- The quoted-region pass started outside any region. -/
def quotePass (q : Char) (d : List Char) : Option (List Char) :=
  quotePassAux q false d

/-- The whitespace class of the regular expression in dsn.py line 144. -/
def isSpaceChar (c : Char) : Bool :=
  c = ' ' || c = '\t' || c = '\n' || c = '\r' || c = '\x0b' || c = '\x0c'

/-- Model of the re.split on single parens and whitespace (keeping the
separators) followed by strip and the filter of empty strings: each paren
becomes its own token, whitespace separates, and maximal runs of other
characters become atoms. cur is the current atom accumulated in reverse. -/
def splitAux (cur : List Char) : List Char → List String
  | [] => if cur.isEmpty then [] else [String.mk cur.reverse]
  | c :: rest =>
    if c = '(' || c = ')' then
      (if cur.isEmpty then [] else [String.mk cur.reverse]) ++
        String.mk [c] :: splitAux [] rest
    else if isSpaceChar c then
      (if cur.isEmpty then [] else [String.mk cur.reverse]) ++ splitAux [] rest
    else splitAux (c :: cur) rest

/-- Tokenization of the quote-preserved text. -/
def splitTokens (d : List Char) : List String := splitAux [] d

/-- The text handed to the quoted-region pass: dsn.py lines 129-133 remove the
three quote markers, remove escaped double quotes, and lowercase. -/
def preQuoteText (data : List Char) : List Char :=
  lowerStr (removeEscQuote (removeMarkerDl (removeMarkerSq (removeMarkerDq data))))

/-- Lexing part of dsn.py process (lines 122-146): produce the token list, or
none when the quoted-region pass runs off the end of the input. -/
def lexFile (data : List Char) : Option (List String) :=
  (quotePass (selectQuote data) (preQuoteText data)).map splitTokens

/-- Result of walking one file's tokens: success flag plus the global path and
counts as left by the walk. On failure they hold their values at the failure
point, since the script mutates module-level globals. -/
structure WalkResult where
  ok : Bool
  path : List String
  counts : Counts
deriving DecidableEq

/-- Token walk from dsn.py process (lines 148-164), with the globals path and
counts passed explicitly. Failure arms model the script's exceptions: reading
past the last token (IndexError), the assertion that a group name is not a
close paren, popping an empty path (IndexError), the assertion that an atom
occurs inside some paren, and the final assertion that the path is empty. -/
def walkTokens : List String → List String → Counts → WalkResult
  | [], path, counts => ⟨path.isEmpty, path, counts⟩
  | t :: rest, path, counts =>
    if t = "(" then
      match rest with
      | [] => ⟨false, path, counts⟩
      | nt :: rest2 =>
        if nt = ")" then ⟨false, path, counts⟩
        else walkTokens rest2 (path ++ [nt]) (add_path (path ++ [nt]) counts)
    else if t = ")" then
      match path with
      | [] => ⟨false, [], counts⟩
      | _ :: _ => walkTokens rest path.dropLast counts
    else if path.isEmpty then ⟨false, path, counts⟩
    else if valid_keyword t then
      walkTokens rest ((path ++ [t]).dropLast) (add_path (path ++ [t]) counts)
    else walkTokens rest path counts

/-- Per-file processing, dsn.py process: lex then walk. A lexer failure leaves
path and counts untouched, because the exception fires before the walk. -/
def process (data : List Char) (path : List String) (counts : Counts) : WalkResult :=
  match lexFile data with
  | none => ⟨false, path, counts⟩
  | some tokens => walkTokens tokens path counts

/-- The main loop of dsn.py (lines 167-172): each file either fails to read
(none) or is processed; exceptions are caught and the loop continues, with
the module-level path and counts keeping whatever state processing left. -/
def runFiles : List (Option (List Char)) → List String → Counts → List String × Counts
  | [], path, counts => (path, counts)
  | f :: fs, path, counts =>
    match f with
    | none => runFiles fs path counts
    | some data =>
      let r := process data path counts
      runFiles fs r.path r.counts

/-- Strict lexicographic comparison of char lists by code point, the order
Python uses on strings. -/
def lexLtB : List Char → List Char → Bool
  | [], [] => false
  | [], _ :: _ => true
  | _ :: _, [] => false
  | a :: as, b :: bs => if a < b then true else if b < a then false else lexLtB as bs

/-- Sort-key order of dsn.py print_counts: vals holds (count, path) pairs and
the key swaps them back, so pairs compare primarily by the path string and
secondarily by the count. -/
def valsLe (a b : Nat × String) : Prop :=
  lexLtB a.2.data b.2.data = true ∨ (a.2 = b.2 ∧ a.1 ≤ b.1)

instance : DecidableRel valsLe := fun a b => by
  unfold valsLe
  infer_instance

/-- The sorted (count, path) pairs of print_counts. Python's list.sort is a
stable sort; since dict keys are distinct the sorted list is unique for this
key, and insertion sort produces it. -/
def sortedVals (counts : Counts) : List (Nat × String) :=
  List.insertionSort valsLe (counts.map fun kv => (kv.2, kv.1))

/-- One output line, the formatted string of a path and its count. -/
def fmtEntry (vk : Nat × String) : String := vk.2 ++ ": " ++ toString vk.1

/-- Model of dsn.py print_counts, as the list of printed lines. -/
def print_counts (counts : Counts) : List String :=
  (sortedVals counts).map fmtEntry

/-- Modelled from the words of claim C3: ordering primarily by count
ascending, secondarily by the path string. -/
def claimCountFirstLe (a b : Nat × String) : Prop :=
  a.1 < b.1 ∨ (a.1 = b.1 ∧ (lexLtB a.2.data b.2.data = true ∨ a.2 = b.2))

/-- Modelled from the words of claim C8: the token stream contains an open
paren immediately followed by a close paren. -/
def hasOpenCloseAdjacent : List String → Bool
  | [] => false
  | [_] => false
  | t :: nt :: rest => (t = "(" && nt = ")") || hasOpenCloseAdjacent (nt :: rest)

instance : IsTotal (Nat × String) valsLe := by
  constructor
  have tri : ∀ xs ys : List Char, lexLtB xs ys = true ∨ lexLtB ys xs = true ∨ xs = ys := by
    intro xs
    induction xs with
    | nil =>
      intro ys
      cases ys with
      | nil => exact Or.inr (Or.inr rfl)
      | cons b bs => exact Or.inl rfl
    | cons a as ih =>
      intro ys
      cases ys with
      | nil => exact Or.inr (Or.inl rfl)
      | cons b bs =>
        rcases lt_trichotomy a b with h | h | h
        · left
          simp [lexLtB, h]
        · subst h
          rcases ih bs with h1 | h1 | h1
          · left
            simp [lexLtB, h1]
          · right
            left
            simp [lexLtB, h1]
          · right
            right
            rw [h1]
        · right
          left
          simp [lexLtB, h]
  intro a b
  rcases tri a.2.data b.2.data with h | h | h
  · exact Or.inl (Or.inl h)
  · exact Or.inr (Or.inl h)
  · have he : a.2 = b.2 := String.ext h
    rcases Nat.le_total a.1 b.1 with hle | hle
    · exact Or.inl (Or.inr ⟨he, hle⟩)
    · exact Or.inr (Or.inr ⟨he.symm, hle⟩)

instance : IsTrans (Nat × String) valsLe := by
  constructor
  have ltrans : ∀ xs ys zs : List Char, lexLtB xs ys = true → lexLtB ys zs = true →
      lexLtB xs zs = true := by
    intro xs
    induction xs with
    | nil =>
      intro ys zs h1 h2
      cases ys with
      | nil => exact absurd h1 (by simp [lexLtB])
      | cons b bs =>
        cases zs with
        | nil => exact absurd h2 (by simp [lexLtB])
        | cons c cs => rfl
    | cons a as ih =>
      intro ys zs h1 h2
      cases ys with
      | nil => exact absurd h1 (by simp [lexLtB])
      | cons b bs =>
        cases zs with
        | nil => exact absurd h2 (by simp [lexLtB])
        | cons c cs =>
          rcases lt_trichotomy a b with hab | hab | hab
          · rcases lt_trichotomy b c with hbc | hbc | hbc
            · simp [lexLtB, lt_trans hab hbc]
            · subst hbc
              simp [lexLtB, hab]
            · exact absurd h2 (by simp [lexLtB, lt_asymm hbc, hbc])
          · subst hab
            simp only [lexLtB, lt_irrefl, if_false] at h1
            rcases lt_trichotomy a c with hac | hac | hac
            · simp [lexLtB, hac]
            · subst hac
              simp only [lexLtB, lt_irrefl, if_false] at h2
              simp [lexLtB, ih bs cs h1 h2]
            · exact absurd h2 (by simp [lexLtB, lt_asymm hac, hac])
          · exact absurd h1 (by simp [lexLtB, lt_asymm hab, hab])
  intro a b c hab hbc
  rcases hab with h1 | ⟨h1e, h1le⟩
  · rcases hbc with h2 | ⟨h2e, h2le⟩
    · exact Or.inl (ltrans _ _ _ h1 h2)
    · left
      rw [← h2e]
      exact h1
  · rcases hbc with h2 | ⟨h2e, h2le⟩
    · left
      rw [h1e]
      exact h2
    · exact Or.inr ⟨h1e.trans h2e, le_trans h1le h2le⟩

theorem quotePassAux_false_cons (q c : Char) (rest : List Char) :
    quotePassAux q false (c :: rest) =
      if c = q then (quotePassAux q true rest).map fun out => c :: out
      else (quotePassAux q false rest).map fun out => c :: out := rfl

theorem quotePassAux_true_cons (q c : Char) (rest : List Char) :
    quotePassAux q true (c :: rest) =
      if c = q then (quotePassAux q false rest).map fun out => q :: out
      else quotePassAux q true rest := rfl

theorem quotePassAux_false_append (q : Char) (pre d : List Char) (h : ¬ q ∈ pre) :
    quotePassAux q false (pre ++ d) =
      (quotePassAux q false d).map fun out => pre ++ out := by
  induction pre with
  | nil =>
    simp only [List.nil_append]
    cases hx : quotePassAux q false d <;> simp [hx]
  | cons c pre ih =>
    rw [List.mem_cons] at h
    push_neg at h
    obtain ⟨hqc, hpre⟩ := h
    have hcq : ¬ c = q := fun hc => hqc hc.symm
    rw [List.cons_append, quotePassAux_false_cons, if_neg hcq, ih hpre]
    cases hx : quotePassAux q false d <;> simp [hx]

theorem quotePassAux_true_append (q : Char) (mid post : List Char) (h : ¬ q ∈ mid) :
    quotePassAux q true (mid ++ q :: post) =
      (quotePassAux q false post).map fun out => q :: out := by
  induction mid with
  | nil =>
    rw [List.nil_append, quotePassAux_true_cons, if_pos rfl]
  | cons c mid ih =>
    rw [List.mem_cons] at h
    push_neg at h
    obtain ⟨hqc, hmid⟩ := h
    have hcq : ¬ c = q := fun hc => hqc hc.symm
    rw [List.cons_append, quotePassAux_true_cons, if_neg hcq]
    exact ih hmid

theorem quotePassAux_none_iff (q : Char) (d : List Char) :
    (quotePassAux q false d = none ↔ d.count q % 2 = 1) ∧
    (quotePassAux q true d = none ↔ d.count q % 2 = 0) := by
  induction d with
  | nil => simp [quotePassAux]
  | cons c rest ih =>
    by_cases hc : c = q
    · subst hc
      constructor
      · rw [quotePassAux_false_cons, if_pos rfl, Option.map_eq_none', ih.2,
          List.count_cons_self]
        omega
      · rw [quotePassAux_true_cons, if_pos rfl, Option.map_eq_none', ih.1,
          List.count_cons_self]
        omega
    · have hcount : (c :: rest).count q = rest.count q :=
        List.count_cons_of_ne (fun h => hc h.symm) rest
      constructor
      · rw [quotePassAux_false_cons, if_neg hc, Option.map_eq_none', ih.1, hcount]
      · rw [quotePassAux_true_cons, if_neg hc, ih.2, hcount]

theorem walkTokens_nil (path : List String) (counts : Counts) :
    walkTokens [] path counts = ⟨path.isEmpty, path, counts⟩ := rfl

/-- Claim C1, counterexample: on the file holding the quoted region of the
claim's own example, the lexer produces the single atom made of the two quote
characters, and the verbatim atom the claim promises does not occur in the
token sequence: the interior of the quoted region is dropped. -/
theorem C1_counterexample :
    lexFile ("(net \"a b(c\")".toList) = some ["(", "net", "\"\"", ")"] ∧
    ¬ "\"a b(c\"" ∈ ["(", "net", "\"\"", ")"] := by
  constructor
  · decide
  · decide

/-- Claim C1 (amended): a closed quoted region is kept together as one piece
of the quoted-region pass output, but only its two delimiting quote
characters are emitted; every interior character (whitespace and parens
included) is dropped rather than copied verbatim. -/
theorem C1_quoted_region (q : Char) (pre mid post : List Char)
    (h1 : ¬ q ∈ pre) (h2 : ¬ q ∈ mid) :
    quotePass q (pre ++ q :: (mid ++ q :: post)) =
      (quotePass q post).map fun out => pre ++ q :: q :: out := by
  unfold quotePass
  rw [quotePassAux_false_append q pre _ h1, quotePassAux_false_cons, if_pos rfl,
    quotePassAux_true_append q mid post h2]
  cases hx : quotePassAux q false post <;> simp [hx]

/-- Witness for C1_quoted_region at a concrete quoted region. -/
theorem C1_quoted_region_witness :
    quotePass '"' (['x'] ++ '"' :: (['y', ' '] ++ '"' :: ['z'])) =
      (quotePass '"' ['z']).map fun out => ['x'] ++ '"' :: '"' :: out :=
  C1_quoted_region '"' ['x'] ['y', ' '] ['z'] (by decide) (by decide)

/-- Claim C2, counterexample: the file of the single open group of the claim's
walker fails its final balance assertion, yet the accumulator afterwards holds
the partial count recorded before the failure, and that count survives into
the run's final totals. -/
theorem C2_counterexample :
    process ("(pcb".toList) [] [] = ⟨false, ["pcb"], [("pcb", 1)]⟩ ∧
    runFiles [some ("(pcb".toList)] [] [] = (["pcb"], [("pcb", 1)]) := by
  constructor
  · decide
  · decide

/-- Claim C2 (amended): a file whose read fails, or whose lexer fails before
the walk begins, leaves the accumulator and the path exactly as they were; a
file that fails inside the walker instead keeps the partial counts and path
mutations made before the failure, as C2_counterexample shows. -/
theorem C2_failed_file_state (data : List Char) (fs : List (Option (List Char)))
    (path : List String) (counts : Counts) (h : lexFile data = none) :
    runFiles (some data :: fs) path counts = runFiles fs path counts ∧
    runFiles (none :: fs) path counts = runFiles fs path counts := by
  constructor
  · show runFiles fs (process data path counts).path (process data path counts).counts = _
    rw [show process data path counts = ⟨false, path, counts⟩ by
      unfold process
      rw [h]]
  · rfl

/-- Witness for C2_failed_file_state on a file with an unterminated quote. -/
theorem C2_failed_file_state_witness :
    runFiles [some ("\"ab".toList)] [] [] = runFiles [] [] [] ∧
    runFiles [none] [] [] = runFiles [] [] [] :=
  C2_failed_file_state ("\"ab".toList) [] [] [] (by decide)

/-- Claim C3, counterexample: with entries b mapped to 1 and a mapped to 2 the
printed lines come out path-first as a: 2 then b: 1, and the leading pair
(2, a) against (1, b) violates the claimed count-primary ascending order. -/
theorem C3_counterexample :
    print_counts [("b", 1), ("a", 2)] = ["a: 2", "b: 1"] ∧
    sortedVals [("b", 1), ("a", 2)] = [(2, "a"), (1, "b")] ∧
    ¬ claimCountFirstLe (2, "a") (1, "b") := by
  refine ⟨by decide, by decide, ?_⟩
  rintro (h | ⟨h, _⟩) <;> omega

/-- Claim C3 (amended): the report has one line per accumulator entry of the
form path, colon, count, and the lines are sorted ascending primarily by the
path string (lexicographic) and secondarily by count — not count-first. -/
theorem C3_sorted_output (counts : Counts) :
    List.Sorted valsLe (sortedVals counts) ∧
    (sortedVals counts).Perm (counts.map fun kv => (kv.2, kv.1)) ∧
    print_counts counts = (sortedVals counts).map fmtEntry := by
  refine ⟨?_, ?_, rfl⟩
  · exact List.sorted_insertionSort valsLe _
  · exact List.perm_insertionSort valsLe _

/-- Claim C4, counterexample: on a file that selects the single quote as its
active quote character, the two-character sequence backslash plus single
quote survives the escaped-quote removal step. -/
theorem C4_counterexample :
    selectQuote ("(string_quote ') (a \\' b)".toList) = '\'' ∧
    containsSub ['\\', '\''] (preQuoteText ("(string_quote ') (a \\' b)".toList)) = true := by
  constructor
  · decide
  · decide

/-- Claim C4 (amended): the escaped-quote removal step always removes the
fixed sequence backslash plus double quote, regardless of the selected active
quote character, and removes nothing else — in particular a text free of
double quotes (such as one using backslash-single-quote or backslash-dollar)
passes through unchanged. -/
theorem C4_escape_removal (d e : List Char) (h : ¬ '"' ∈ d) :
    removeEscQuote d = d ∧ removeEscQuote ('\\' :: '"' :: e) = removeEscQuote e := by
  constructor
  · induction d using removeEscQuote.induct with
    | case1 => rfl
    | case2 c => rfl
    | case3 c1 c2 rest hc ih =>
      exact absurd (hc.2 ▸ List.mem_cons_of_mem _ (List.mem_cons_self _ _)) h
    | case4 c1 c2 rest hc ih =>
      simp only [removeEscQuote, if_neg hc]
      have h2 : ¬ '"' ∈ c2 :: rest := fun hm => h (List.mem_cons_of_mem _ hm)
      rw [ih h2]
  · simp [removeEscQuote]

/-- Witness for C4_escape_removal: backslash-single-quote is kept, while a
backslash-double-quote pair is removed. -/
theorem C4_escape_removal_witness :
    removeEscQuote ['\\', '\''] = ['\\', '\''] ∧
    removeEscQuote ('\\' :: '"' :: ['x']) = removeEscQuote ['x'] :=
  C4_escape_removal ['\\', '\''] ['x'] (by decide)

/-- Claim C5, counterexample: the first file fails and leaves the module-level
path holding pcb, so the next file of the run starts with a non-empty path:
the lone close paren of the second file, which from an empty path would fail,
instead pops the leftover segment and the run ends balanced. -/
theorem C5_counterexample :
    (process ("(pcb".toList) [] []).ok = false ∧
    (process ("(pcb".toList) [] []).path = ["pcb"] ∧
    (walkTokens [")"] [] []).ok = false ∧
    runFiles [some ("(pcb".toList), some (")".toList)] [] [] = ([], [("pcb", 1)]) := by
  refine ⟨by decide, by decide, by decide, by decide⟩

/-- Claim C5 (amended): whenever the walk of a token list succeeds, the path
it leaves behind is empty — so the stack is empty after every successfully
processed file, and before a file when every earlier file succeeded; a failed
file, however, may leave a non-empty path that persists into later files. -/
theorem C5_path_empty_on_success (tokens path : List String) (counts : Counts)
    (h : (walkTokens tokens path counts).ok = true) :
    (walkTokens tokens path counts).path = [] := by
  revert h
  induction tokens, path, counts using walkTokens.induct
  all_goals intro h
  all_goals rw [walkTokens.eq_def] at h ⊢
  all_goals simp_all [List.isEmpty_iff, List.dropLast_concat]

/-- Witness for C5_path_empty_on_success on a one-group file. -/
theorem C5_path_empty_on_success_witness :
    (walkTokens ["(", "pcb", ")"] [] []).path = [] :=
  C5_path_empty_on_success ["(", "pcb", ")"] [] [] (by decide)

/-- Claim C6: processing the single concrete file of the claim from an empty
accumulator succeeds and yields exactly the four expected entries, each with
count one; the four names are all in the keyword vocabulary. -/
theorem C6_concrete_file :
    process ("(pcb (structure (layer top)))".toList) [] [] =
      ⟨true, [], [("pcb", 1), ("pcb.structure", 1), ("pcb.structure.layer", 1),
        ("pcb.structure.layer.top", 1)]⟩ ∧
    "pcb" ∈ keywords ∧ "structure" ∈ keywords ∧ "layer" ∈ keywords ∧
    "top" ∈ keywords := by
  refine ⟨by decide, by decide, by decide, by decide, by decide⟩

/-- Claim C7: an atom token that is not in the keyword vocabulary, read while
the path is non-empty, leaves the walker state exactly as it was: the walk of
the remaining tokens proceeds from the same path and the same counts. -/
theorem C7_unrecognized_atom_noop (t : String) (rest path : List String)
    (counts : Counts) (h1 : t ≠ "(") (h2 : t ≠ ")") (h3 : ¬ t ∈ keywords)
    (h4 : path ≠ []) :
    walkTokens (t :: rest) path counts = walkTokens rest path counts := by
  have hk : valid_keyword t = false := by
    unfold valid_keyword
    exact decide_eq_false h3
  have hp : path.isEmpty = false := by
    cases path with
    | nil => exact absurd rfl h4
    | cons a l => rfl
  rw [walkTokens.eq_def]
  simp [if_neg h1, if_neg h2, hp, hk]

/-- Witness for C7_unrecognized_atom_noop on a non-keyword atom. -/
theorem C7_unrecognized_atom_noop_witness :
    walkTokens ["zzz"] ["pcb"] [] = walkTokens [] ["pcb"] [] :=
  C7_unrecognized_atom_noop "zzz" [] ["pcb"] [] (by decide) (by decide)
    (by decide) (by decide)

/-- Claim C8, counterexample: a token stream containing an open paren
immediately followed by a close paren on which the walker nevertheless
succeeds — the open paren is consumed as a group name by the preceding open
paren, so the adjacent close paren just pops it. -/
theorem C8_counterexample :
    hasOpenCloseAdjacent ["(", "(", ")", "(", "a", ")"] = true ∧
    walkTokens ["(", "(", ")", "(", "a", ")"] [] [] =
      ⟨true, [], [("(", 1), ("a", 1)]⟩ := by
  constructor
  · decide
  · decide

/-- Claim C8 (amended): whenever the walker reads an open paren as its current
token, it fails if the following token is a close paren or if there is no
following token; in particular the claim's input of a group with two empty
pairs fails at the first empty pair, with the state at that moment kept. -/
theorem C8_empty_group (path rest : List String) (counts : Counts) :
    walkTokens ["("] path counts = ⟨false, path, counts⟩ ∧
    walkTokens ("(" :: ")" :: rest) path counts = ⟨false, path, counts⟩ ∧
    process ("(pcb ()())".toList) [] [] = ⟨false, ["pcb"], [("pcb", 1)]⟩ := by
  refine ⟨rfl, ?_, by decide⟩
  rw [walkTokens.eq_def]
  simp

/-- Claim C9: when the text reaching the quoted-region pass holds an odd
number of occurrences of the active quote character — a quote is opened but
never closed — the lexer fails for that file instead of producing tokens. -/
theorem C9_unterminated_quote (data : List Char)
    (h : (preQuoteText data).count (selectQuote data) % 2 = 1) :
    lexFile data = none := by
  unfold lexFile quotePass
  rw [(quotePassAux_none_iff (selectQuote data) (preQuoteText data)).1.mpr h]
  rfl

/-- Witness for C9_unterminated_quote on a file with one unclosed quote. -/
theorem C9_unterminated_quote_witness :
    lexFile ("\"ab".toList) = none :=
  C9_unterminated_quote ("\"ab".toList) (by decide)

/-- Claim C10: quote selection follows the fixed precedence dollar over single
quote over double quote — a dollar marker wins over everything, and a single
quote marker wins whenever no dollar marker is present. -/
theorem C10_quote_precedence (data : List Char) :
    (containsSub markerDl data = true → selectQuote data = '$') ∧
    (containsSub markerSq data = true → containsSub markerDl data = false →
      selectQuote data = '\'') := by
  constructor
  · intro h
    simp [selectQuote, h]
  · intro h1 h2
    simp [selectQuote, h1, h2]

/-- Witness for C10_quote_precedence: a file with both the single-quote and
the dollar markers selects the dollar, and one with only the single-quote
marker selects the single quote. -/
theorem C10_quote_precedence_witness :
    selectQuote ("(string_quote ') x (string_quote $)".toList) = '$' ∧
    selectQuote ("(string_quote ')".toList) = '\'' :=
  ⟨(C10_quote_precedence _).1 (by decide),
   (C10_quote_precedence _).2 (by decide) (by decide)⟩
